import Mathlib

/-!
A shallow embedding of the CRM core of `alx-backend-graphql_crm`
(`crm/schema.py` and `crm/filters.py`), together with proofs checking the
specification's claims against it.

Modelling conventions:
* Database rows live in a `Store` holding the customer, product and order
  tables as lists, in insertion order; primary keys are `Nat` counters.
* `DecimalField` values (prices, order totals) are embedded as `Int`,
  counted in the smallest currency unit: a decimal column with fixed
  `decimal_places` is isomorphic to scaled integers, and the sums the code
  takes are exact in either representation.
* `DateTimeField` values are embedded as an abstract `Nat` timestamp; the
  "current time" is passed to an operation as an explicit argument.  A Python
  `datetime` object is always truthy, so `order_date or timezone.now()`
  becomes `orderDate.getD now`.
* A raised `GraphQLError` becomes the `Except.error` of a `CrmErr`
  constructor, one constructor per `raise` site, carrying the site's message
  via `errMessage`.
-/

namespace Crm

/-- A `crm.models.Customer` row: `name`, unique `email`, optional `phone`.
`phone = none` models both a NULL column and an absent input field. -/
structure Customer where
  id : Nat
  name : String
  email : String
  phone : Option String
deriving Repr, DecidableEq

/-- A `crm.models.Product` row: `name`, decimal `price`, integer `stock`. -/
structure Product where
  id : Nat
  name : String
  price : Int
  stock : Int
deriving Repr, DecidableEq

/-- A `crm.models.Order` row.  `productIds` is the many-to-many association
set by `order.product.set(products)`; `total_amount` is the decimal column
written once by `CreateOrder.mutate`. -/
structure Order where
  id : Nat
  customerId : Nat
  productIds : List Nat
  total_amount : Int
  order_date : Nat
deriving Repr, DecidableEq

/-- The backing database: one list per table plus the auto-increment
counters for the primary keys the mutations assign. -/
structure Store where
  customers : List Customer
  products : List Product
  orders : List Order
  nextCustomerId : Nat
  nextOrderId : Nat
deriving Repr, DecidableEq

/-- One constructor per `raise GraphQLError(...)` site of `crm/schema.py`. -/
inductive CrmErr where
  | invalidPhoneFormat
  | emailExists
  | phoneExists
  | nameEmailRequired
  | bulkInvalidPhone (phone : String)
  | bulkEmailExists (email : String)
  | emptyProductIds
  | invalidCustomerId
  | noProductsFound
  | productCountMismatch
deriving Repr, DecidableEq

/-- The message string each `raise GraphQLError(...)` site passes
(`str(e)` of a `GraphQLError` is its message). -/
def errMessage : CrmErr → String
  | .invalidPhoneFormat => "Invalid phone number format."
  | .emailExists => "A customer with this email already exists."
  | .phoneExists => "A customer with this phone number already exists."
  | .nameEmailRequired => "Name and email are required fields."
  | .bulkInvalidPhone p => "Invalid phone number format. " ++ p
  | .bulkEmailExists e => "A customer with email " ++ e ++ " already exists."
  | .emptyProductIds => "At least one product ID must be provided."
  | .invalidCustomerId => "Invalid customer ID."
  | .noProductsFound => "No products found with the provided IDs."
  | .productCountMismatch => "Some product IDs are invalid or do not exist."

/-- The specification's error taxonomy (spec §7). -/
inductive ErrKind where
  | validation
  | conflict
  | notFound
deriving Repr, DecidableEq

/-- Modelled from the spec: §7 classifies each failure of the domain
operations — `ValidationError` for malformed input (phone format, missing
name/email, empty product-id list, product-id count mismatch),
`ConflictError` for uniqueness violations on email or phone, and
`NotFoundError` for an unknown customer id or no matching products.  The
source raises a uniform `GraphQLError`, so this mapping comes from the
spec's words. -/
def errKind : CrmErr → ErrKind
  | .invalidPhoneFormat => .validation
  | .emailExists => .conflict
  | .phoneExists => .conflict
  | .nameEmailRequired => .validation
  | .bulkInvalidPhone _ => .validation
  | .bulkEmailExists _ => .conflict
  | .emptyProductIds => .validation
  | .invalidCustomerId => .notFound
  | .noProductsFound => .notFound
  | .productCountMismatch => .validation

/-- Python truthiness of an optional string: `None` and `""` are falsy. -/
def truthyStr : Option String → Bool
  | none => false
  | some s => !s.isEmpty

/-- Strip one optional leading `+` (the `\+?` element of the pattern). -/
def stripPlus (cs : List Char) : List Char :=
  match cs with
  | '+' :: rest => rest
  | _ => cs

/-- An ASCII digit `0`–`9`: the plain reading of "digit" used by the
specification's wording of the phone pattern. -/
def isAsciiDigit (c : Char) : Bool :=
  '0' ≤ c && c ≤ '9'

/-- The non-ASCII code-point ranges of the Unicode decimal digits
(category Nd), as CPython's regex engine delimits them (unicodedata
14.0.0; every range is a contiguous run of digit characters). -/
def ndExtraRanges : List (Nat × Nat) :=
  [(0x660, 0x669), (0x6F0, 0x6F9), (0x7C0, 0x7C9), (0x966, 0x96F),
   (0x9E6, 0x9EF), (0xA66, 0xA6F), (0xAE6, 0xAEF), (0xB66, 0xB6F),
   (0xBE6, 0xBEF), (0xC66, 0xC6F), (0xCE6, 0xCEF), (0xD66, 0xD6F),
   (0xDE6, 0xDEF), (0xE50, 0xE59), (0xED0, 0xED9), (0xF20, 0xF29),
   (0x1040, 0x1049), (0x1090, 0x1099), (0x17E0, 0x17E9), (0x1810, 0x1819),
   (0x1946, 0x194F), (0x19D0, 0x19D9), (0x1A80, 0x1A89), (0x1A90, 0x1A99),
   (0x1B50, 0x1B59), (0x1BB0, 0x1BB9), (0x1C40, 0x1C49), (0x1C50, 0x1C59),
   (0xA620, 0xA629), (0xA8D0, 0xA8D9), (0xA900, 0xA909), (0xA9D0, 0xA9D9),
   (0xA9F0, 0xA9F9), (0xAA50, 0xAA59), (0xABF0, 0xABF9), (0xFF10, 0xFF19),
   (0x104A0, 0x104A9), (0x10D30, 0x10D39), (0x11066, 0x1106F),
   (0x110F0, 0x110F9), (0x11136, 0x1113F), (0x111D0, 0x111D9),
   (0x112F0, 0x112F9), (0x11450, 0x11459), (0x114D0, 0x114D9),
   (0x11650, 0x11659), (0x116C0, 0x116C9), (0x11730, 0x11739),
   (0x118E0, 0x118E9), (0x11950, 0x11959), (0x11C50, 0x11C59),
   (0x11D50, 0x11D59), (0x11DA0, 0x11DA9), (0x16A60, 0x16A69),
   (0x16AC0, 0x16AC9), (0x16B50, 0x16B59), (0x1D7CE, 0x1D7FF),
   (0x1E140, 0x1E149), (0x1E2F0, 0x1E2F9), (0x1E950, 0x1E959),
   (0x1FBF0, 0x1FBF9)]

/-- The `\d` element of the pattern.  On a `str` pattern without
`re.ASCII`, Python's `\d` matches every Unicode decimal digit (category
Nd): ASCII `0`–`9` plus the `ndExtraRanges` code points. -/
def isDigitChar (c : Char) : Bool :=
  isAsciiDigit c ||
    ndExtraRanges.any (fun r => r.1 ≤ c.toNat && c.toNat ≤ r.2)

/-- A full (both ends anchored) match of `[1-9]\d{1,14}` after `stripPlus`:
first character a nonzero digit, the rest digits, 1 to 14 of them. -/
def regexCore (cs : List Char) : Bool :=
  match stripPlus cs with
  | [] => false
  | c :: rest =>
      ('1' ≤ c && c ≤ '9') && rest.all isDigitChar &&
        (1 ≤ rest.length && rest.length ≤ 14)

/-- `is_valid_phone` of `crm/schema.py`:
`bool(re.compile(r'^\+?[1-9]\d{1,14}$').match(phone))`.
Python's `$` (without `re.MULTILINE`) matches at the end of the string or
just before a newline at the end of the string; since no element of the
pattern can consume `'\n'`, `match` succeeds exactly when the whole string,
or the whole string minus one trailing newline, matches the core pattern. -/
def is_valid_phone (phone : String) : Bool :=
  regexCore phone.data ||
    (phone.data.getLast? = some '\n' && regexCore phone.data.dropLast)

/-- For the refinement claim about `is_valid_phone`, the pattern as the
spec words it: an optional leading `+`, a first digit in 1–9, and 2 to 15
digits in total — plain (ASCII) digits — nothing else in the string. -/
def specPhoneMatch (s : String) : Bool :=
  let ds := stripPlus s.data
  (2 ≤ ds.length && ds.length ≤ 15) && ds.all isAsciiDigit &&
    (match ds with
     | [] => false
     | c :: _ => '1' ≤ c && c ≤ '9')

/-- The corrected wording of the pattern's extension: an optional leading
`+`, then 2 to 15 characters, all of them Unicode decimal digits (the
engine's `\d`), the first an ASCII digit in 1–9 (the `[1-9]` class ranges
over code points, so it stays ASCII). -/
def specPhoneMatchUni (s : String) : Bool :=
  let ds := stripPlus s.data
  (2 ≤ ds.length && ds.length ≤ 15) && ds.all isDigitChar &&
    (match ds with
     | [] => false
     | c :: _ => '1' ≤ c && c ≤ '9')

/-- `CreateCustomer.mutate`: phone-format check, then email-uniqueness,
then phone-uniqueness, then save.  On success returns the updated store,
the created customer and the confirmation message. -/
def createCustomer (store : Store) (name email : String)
    (phone : Option String) : Except CrmErr (Store × Customer × String) :=
  if !truthyStr phone || !is_valid_phone (phone.getD "") then
    .error .invalidPhoneFormat
  else if store.customers.any (fun c => c.email = email) then
    .error .emailExists
  else if store.customers.any (fun c => c.phone = phone) then
    .error .phoneExists
  else
    let c : Customer := ⟨store.nextCustomerId, name, email, phone⟩
    .ok ({ store with
            customers := store.customers ++ [c],
            nextCustomerId := store.nextCustomerId + 1 },
         c, "Customer created successfully.")

/-- One input item of `BulkCreateCustomers` (`CreateCustomerInput`): name
and email are required fields of the input type (but may be empty strings),
phone is optional. -/
structure BulkItem where
  name : String
  email : String
  phone : Option String
deriving Repr, DecidableEq

/-- The body of the per-item `try` block of `BulkCreateCustomers.mutate`:
required-fields check, phone-format check when a phone is present, then the
email-exists check against the customers persisted so far, then save. -/
def bulkItemStep (store : Store) (item : BulkItem) :
    Except CrmErr (Store × Customer) :=
  if item.name.isEmpty || item.email.isEmpty then
    .error .nameEmailRequired
  else if truthyStr item.phone && !is_valid_phone (item.phone.getD "") then
    .error (.bulkInvalidPhone (item.phone.getD ""))
  else if store.customers.any (fun c => c.email = item.email) then
    .error (.bulkEmailExists item.email)
  else
    let c : Customer := ⟨store.nextCustomerId, item.name, item.email, item.phone⟩
    .ok ({ store with
            customers := store.customers ++ [c],
            nextCustomerId := store.nextCustomerId + 1 }, c)

/-- The loop of `BulkCreateCustomers.mutate`: each item is processed inside
its own `try/except`, a failing item appends its message to `errors` and the
loop continues; a successful item is saved before the next item runs, so
later items see it in the store. -/
def bulkCreateCustomers (store : Store) (input : List BulkItem) :
    Store × List Customer × List String :=
  match input with
  | [] => (store, [], [])
  | item :: rest =>
      match bulkItemStep store item with
      | .ok (s', c) =>
          let r := bulkCreateCustomers s' rest
          (r.1, c :: r.2.1, r.2.2)
      | .error e =>
          let r := bulkCreateCustomers store rest
          (r.1, r.2.1, errMessage e :: r.2.2)

/-- `CreateOrder.mutate`.  `now` is the value `timezone.now()` would return
during the call.  `Product.objects.filter(id__in=product_ids)` returns each
matching row once, however often its id repeats in the request. -/
def createOrder (store : Store) (customerId : Nat) (productIds : List Nat)
    (orderDate : Option Nat) (now : Nat) : Except CrmErr (Store × Order) :=
  if productIds.isEmpty then
    .error .emptyProductIds
  else
    match store.customers.find? (fun c => c.id = customerId) with
    | none => .error .invalidCustomerId
    | some _ =>
        let products := store.products.filter (fun p => productIds.contains p.id)
        if products.isEmpty then
          .error .noProductsFound
        else if products.length ≠ productIds.length then
          .error .productCountMismatch
        else
          let total : Int := (products.map (fun p => p.price)).sum
          let order : Order :=
            ⟨store.nextOrderId, customerId, products.map (fun p => p.id),
             total, orderDate.getD now⟩
          .ok ({ store with
                  orders := store.orders ++ [order],
                  nextOrderId := store.nextOrderId + 1 }, order)

/-- `OrderType.resolve_total_amount`: returns the order's stored
`total_amount` column, never recomputing it from the products. -/
def resolve_total_amount (o : Order) : Int :=
  o.total_amount

/-- Modelled from the spec: the repository has no price-update operation
(§3: products are "never mutated/deleted here"), but §8 requires that
"mutating a product's price afterward must not change an already-created
order's total_amount".  A storage-level price update rewrites the product
table row and touches nothing else. -/
def setProductPrice (store : Store) (pid : Nat) (newPrice : Int) : Store :=
  { store with
      products := store.products.map
        (fun p => if p.id = pid then { p with price := newPrice } else p) }

/-- A sequence of `CreateCustomer` calls against a store: a failing call
(a raised `GraphQLError`) leaves the store unchanged. -/
def runCreates (store : Store) : List (String × String × Option String) → Store
  | [] => store
  | (n, e, p) :: rest =>
      match createCustomer store n e p with
      | .ok (s', _, _) => runCreates s' rest
      | .error _ => runCreates store rest

/-- The data-model invariant of spec §3: no two persisted customers share
the same present (non-NULL) phone value. -/
def phonesDistinct (cs : List Customer) : Prop :=
  (cs.filterMap (fun c => c.phone)).Nodup

instance (cs : List Customer) : Decidable (phonesDistinct cs) := by
  unfold phonesDistinct; infer_instance

/-- `needle` occurs as a contiguous substring of `hay` (char lists). -/
def subList (needle : List Char) : List Char → Bool
  | [] => needle.isEmpty
  | c :: rest => needle.isPrefixOf (c :: rest) || subList needle rest

/-- Django's `icontains` lookup: case-insensitive substring containment. -/
def icontains (hay sub : String) : Bool :=
  subList sub.toLower.data hay.toLower.data

/-- The arguments of `ProductFilter`, each `none` when not supplied.
`django_filters` skips a filter whose value is empty (`None`), so `none`
always means "no constraint"; `False` for a `BooleanFilter` and `0` for a
`NumberFilter` are not empty values and do reach the filter. -/
structure ProductFilterArgs where
  name : Option String
  priceGte : Option Int
  priceLte : Option Int
  stockGte : Option Int
  stockLte : Option Int
  low_stock : Option Bool
deriving Repr

/-- `ProductFilter.filter_low_stock`: keep rows with `stock < 10` when the
supplied value is truthy, otherwise leave the queryset unchanged. -/
def filter_low_stock (qs : List Product) (value : Bool) : List Product :=
  if value then qs.filter (fun p => decide (p.stock < 10)) else qs

/-- Apply one optional filter: an unsupplied (`none`) value is skipped. -/
def applyOpt {α β : Type} (v : Option α) (f : List β → α → List β)
    (qs : List β) : List β :=
  match v with
  | none => qs
  | some x => f qs x

/-- `ProductFilter` as a whole: the declared filters applied conjunctively
to the queryset, unsupplied arguments imposing no constraint. -/
def applyProductFilter (args : ProductFilterArgs) (qs : List Product) :
    List Product :=
  let qs := applyOpt args.name (fun l v => l.filter (fun p => icontains p.name v)) qs
  let qs := applyOpt args.priceGte (fun l v => l.filter (fun p => decide (v ≤ p.price))) qs
  let qs := applyOpt args.priceLte (fun l v => l.filter (fun p => decide (p.price ≤ v))) qs
  let qs := applyOpt args.stockGte (fun l v => l.filter (fun p => decide (v ≤ p.stock))) qs
  let qs := applyOpt args.stockLte (fun l v => l.filter (fun p => decide (p.stock ≤ v))) qs
  let qs := applyOpt args.low_stock (fun l v => filter_low_stock l v) qs
  qs

/-- The arguments of `OrderFilter`, each `none` when not supplied. -/
structure OrderFilterArgs where
  totalAmountGte : Option Int
  totalAmountLte : Option Int
  orderDateGte : Option Nat
  orderDateLte : Option Nat
  customerName : Option String
  productName : Option String
  product_id : Option Nat
deriving Repr

/-- `OrderFilter.filter_product_id`: `if value:` — a truthy (nonzero) value
keeps the orders containing that product id, a falsy value (the number 0)
leaves the queryset unchanged. -/
def filter_product_id (qs : List Order) (value : Nat) : List Order :=
  if value ≠ 0 then qs.filter (fun o => o.productIds.contains value) else qs

/-- `OrderFilter` as a whole.  The relational lookups `customer__name` and
`product__name` resolve against the store's customer and product tables. -/
def applyOrderFilter (store : Store) (args : OrderFilterArgs)
    (qs : List Order) : List Order :=
  let qs := applyOpt args.totalAmountGte (fun l v => l.filter (fun o => decide (v ≤ o.total_amount))) qs
  let qs := applyOpt args.totalAmountLte (fun l v => l.filter (fun o => decide (o.total_amount ≤ v))) qs
  let qs := applyOpt args.orderDateGte (fun l v => l.filter (fun o => decide (v ≤ o.order_date))) qs
  let qs := applyOpt args.orderDateLte (fun l v => l.filter (fun o => decide (o.order_date ≤ v))) qs
  let qs := applyOpt args.customerName
      (fun l v => l.filter (fun o =>
        match store.customers.find? (fun c => c.id = o.customerId) with
        | some c => icontains c.name v
        | none => false)) qs
  let qs := applyOpt args.productName
      (fun l v => l.filter (fun o =>
        o.productIds.any (fun pid =>
          match store.products.find? (fun p => p.id = pid) with
          | some p => icontains p.name v
          | none => false))) qs
  let qs := applyOpt args.product_id (fun l v => filter_product_id l v) qs
  qs

/-- A store holding one customer (id 1) and two products (ids 1 and 2, at
prices 3 and 4), used to exercise the order mutation at concrete inputs. -/
def storeCO : Store :=
  ⟨[⟨1, "C", "c@x.com", some "+15551234567"⟩],
   [⟨1, "P", 3, 5⟩, ⟨2, "Q", 4, 20⟩], [], 2, 1⟩

lemma createOrder_ok_inv {store : Store} {cid : Nat} {pids : List Nat}
    {od : Option Nat} {now : Nat} {s' : Store} {o : Order}
    (h : createOrder store cid pids od now = .ok (s', o)) :
    o = ⟨store.nextOrderId, cid,
         (store.products.filter (fun p => pids.contains p.id)).map (fun p => p.id),
         ((store.products.filter (fun p => pids.contains p.id)).map (fun p => p.price)).sum,
         od.getD now⟩ ∧
    s' = { store with orders := store.orders ++ [o],
                      nextOrderId := store.nextOrderId + 1 } := by
  unfold createOrder at h
  split at h
  · exact absurd h (by simp)
  · split at h
    · exact absurd h (by simp)
    · dsimp only at h
      split at h
      · exact absurd h (by simp)
      · split at h
        · exact absurd h (by simp)
        · simp only [Except.ok.injEq, Prod.mk.injEq] at h
          obtain ⟨hs, ho⟩ := h
          constructor
          · exact ho.symm
          · rw [← hs, ho]

/-- Claim C1: a successful CreateOrder call's order has total_amount equal to the
sum of the resolved products' prices at call time, order_date equal to the
supplied date or else the current time, and is persisted with its product
associations. -/
theorem C1_createOrder_success_total_and_date
    (store : Store) (cid : Nat) (pids : List Nat) (od : Option Nat) (now : Nat)
    (s' : Store) (o : Order)
    (h : createOrder store cid pids od now = .ok (s', o)) :
    o.total_amount =
      ((store.products.filter (fun p => pids.contains p.id)).map (fun p => p.price)).sum ∧
    (∀ d, od = some d → o.order_date = d) ∧
    (od = none → o.order_date = now) ∧
    s'.orders = store.orders ++ [o] ∧
    o.productIds =
      (store.products.filter (fun p => pids.contains p.id)).map (fun p => p.id) := by
  obtain ⟨ho, hs⟩ := createOrder_ok_inv h
  refine ⟨by rw [ho], ?_, ?_, by rw [hs], by rw [ho]⟩
  · intro d hd; rw [ho, hd]; rfl
  · intro hd; rw [ho, hd]; rfl

/-- Witness for C1 at a concrete call. -/
theorem C1_createOrder_success_total_and_date_witness :
    (⟨1, 1, [1, 2], 7, 42⟩ : Order).total_amount =
      ((storeCO.products.filter (fun p => ([1, 2] : List Nat).contains p.id)).map
        (fun p => p.price)).sum ∧
    (⟨1, 1, [1, 2], 7, 42⟩ : Order).order_date = 42 :=
  have h := C1_createOrder_success_total_and_date storeCO 1 [1, 2] (some 42) 7
    { storeCO with orders := [⟨1, 1, [1, 2], 7, 42⟩], nextOrderId := 2 }
    ⟨1, 1, [1, 2], 7, 42⟩ rfl
  ⟨h.1, h.2.1 42 rfl⟩

/-- Claim C2: CreateOrder's failures in check order — ValidationError on an empty
productIds list, NotFoundError on an unknown customer id, NotFoundError when
no products match, ValidationError when the resolved product count differs
from the requested id count; in particular a duplicated existing id is
deduplicated by storage and rejected through the count mismatch. -/
theorem C2_createOrder_failure_modes
    (store : Store) (cid : Nat) (pids : List Nat) (od : Option Nat) (now : Nat) :
    (pids = [] →
      createOrder store cid pids od now = .error .emptyProductIds ∧
      errKind .emptyProductIds = .validation) ∧
    (pids ≠ [] → store.customers.find? (fun c => c.id = cid) = none →
      createOrder store cid pids od now = .error .invalidCustomerId ∧
      errKind .invalidCustomerId = .notFound) ∧
    (∀ c, pids ≠ [] → store.customers.find? (fun x => x.id = cid) = some c →
      store.products.filter (fun p => pids.contains p.id) = [] →
      createOrder store cid pids od now = .error .noProductsFound ∧
      errKind .noProductsFound = .notFound) ∧
    (∀ c, pids ≠ [] → store.customers.find? (fun x => x.id = cid) = some c →
      store.products.filter (fun p => pids.contains p.id) ≠ [] →
      (store.products.filter (fun p => pids.contains p.id)).length ≠ pids.length →
      createOrder store cid pids od now = .error .productCountMismatch ∧
      errKind .productCountMismatch = .validation) ∧
    (createOrder storeCO 1 [1, 1] none 0 = .error .productCountMismatch ∧
      errKind .productCountMismatch = .validation) := by
  refine ⟨?_, ?_, ?_, ?_, ⟨rfl, rfl⟩⟩
  · intro h
    subst h
    exact ⟨rfl, rfl⟩
  · intro hne hfind
    have h0 : ¬ (pids.isEmpty = true) := by
      cases pids
      · exact absurd rfl hne
      · simp
    refine ⟨?_, rfl⟩
    unfold createOrder
    rw [if_neg h0, hfind]
  · intro c hne hfind hfil
    have h0 : ¬ (pids.isEmpty = true) := by
      cases pids
      · exact absurd rfl hne
      · simp
    refine ⟨?_, rfl⟩
    unfold createOrder
    rw [if_neg h0, hfind]
    dsimp only
    rw [hfil]
    rfl
  · intro c hne hfind hfil hlen
    have h0 : ¬ (pids.isEmpty = true) := by
      cases pids
      · exact absurd rfl hne
      · simp
    have h1 : ¬ ((store.products.filter (fun p => pids.contains p.id)).isEmpty = true) := by
      cases hf : store.products.filter (fun p => pids.contains p.id)
      · exact absurd hf hfil
      · simp [hf]
    refine ⟨?_, rfl⟩
    unfold createOrder
    rw [if_neg h0, hfind]
    dsimp only
    rw [if_neg h1, if_pos hlen]

/-- Witness for C2 at concrete calls. -/
theorem C2_createOrder_failure_modes_witness :
    createOrder ⟨[], [], [], 1, 1⟩ 1 [] none 0 = .error .emptyProductIds ∧
    createOrder ⟨[], [], [], 1, 1⟩ 1 [1] none 0 = .error .invalidCustomerId ∧
    createOrder storeCO 1 [5] none 0 = .error .noProductsFound ∧
    createOrder storeCO 1 [1, 5] none 0 = .error .productCountMismatch ∧
    createOrder storeCO 1 [1, 1] none 0 = .error .productCountMismatch :=
  ⟨((C2_createOrder_failure_modes ⟨[], [], [], 1, 1⟩ 1 [] none 0).1 rfl).1,
   ((C2_createOrder_failure_modes ⟨[], [], [], 1, 1⟩ 1 [1] none 0).2.1
      (by decide) rfl).1,
   ((C2_createOrder_failure_modes storeCO 1 [5] none 0).2.2.1
      ⟨1, "C", "c@x.com", some "+15551234567"⟩ (by decide) rfl rfl).1,
   ((C2_createOrder_failure_modes storeCO 1 [1, 5] none 0).2.2.2.1
      ⟨1, "C", "c@x.com", some "+15551234567"⟩ (by decide) rfl (by decide) (by decide)).1,
   ((C2_createOrder_failure_modes storeCO 1 [1, 1] none 0).2.2.2.2).1⟩

lemma createCustomer_ok_inv {store : Store} {name email : String}
    {phone : Option String} {s' : Store} {c : Customer} {msg : String}
    (h : createCustomer store name email phone = .ok (s', c, msg)) :
    c = ⟨store.nextCustomerId, name, email, phone⟩ ∧
    s' = { store with customers := store.customers ++ [c],
                      nextCustomerId := store.nextCustomerId + 1 } ∧
    msg = "Customer created successfully." ∧
    truthyStr phone = true ∧
    is_valid_phone (phone.getD "") = true ∧
    store.customers.any (fun x => x.email = email) = false ∧
    store.customers.any (fun x => x.phone = phone) = false := by
  unfold createCustomer at h
  split at h
  case isTrue hc => exact absurd h (by simp)
  case isFalse hc =>
    have ht : truthyStr phone = true := by
      cases hb : truthyStr phone
      · exact absurd (by simp [hb]) hc
      · rfl
    have hv : is_valid_phone (phone.getD "") = true := by
      cases hb : is_valid_phone (phone.getD "")
      · exact absurd (by simp [hb]) hc
      · rfl
    split at h
    case isTrue => exact absurd h (by simp)
    case isFalse he =>
      have he' : store.customers.any (fun x => x.email = email) = false := by
        cases hb : store.customers.any (fun x => x.email = email)
        · rfl
        · exact absurd hb he
      split at h
      case isTrue => exact absurd h (by simp)
      case isFalse hp =>
        have hp' : store.customers.any (fun x => x.phone = phone) = false := by
          cases hb : store.customers.any (fun x => x.phone = phone)
          · rfl
          · exact absurd hb hp
        simp only [Except.ok.injEq, Prod.mk.injEq] at h
        obtain ⟨hs, hcc, hm⟩ := h
        refine ⟨hcc.symm, ?_, hm.symm, ht, hv, he', hp'⟩
        rw [← hs, hcc]

/-- Claim C3: CreateCustomer fails with ValidationError when the phone is absent
or invalid, else with ConflictError when the email exists, else with
ConflictError when the phone exists; on success it appends exactly one new
customer and returns it with the confirmation message; and after a
successful create, a second create with the same email (and a present,
valid phone) fails with the email ConflictError. -/
theorem C3_createCustomer_check_order
    (store : Store) (name email : String) (phone : Option String) :
    (truthyStr phone = false ∨ is_valid_phone (phone.getD "") = false →
      createCustomer store name email phone = .error .invalidPhoneFormat ∧
      errKind .invalidPhoneFormat = .validation) ∧
    (truthyStr phone = true → is_valid_phone (phone.getD "") = true →
      store.customers.any (fun c => c.email = email) = true →
      createCustomer store name email phone = .error .emailExists ∧
      errKind .emailExists = .conflict) ∧
    (truthyStr phone = true → is_valid_phone (phone.getD "") = true →
      store.customers.any (fun c => c.email = email) = false →
      store.customers.any (fun c => c.phone = phone) = true →
      createCustomer store name email phone = .error .phoneExists ∧
      errKind .phoneExists = .conflict) ∧
    (truthyStr phone = true → is_valid_phone (phone.getD "") = true →
      store.customers.any (fun c => c.email = email) = false →
      store.customers.any (fun c => c.phone = phone) = false →
      createCustomer store name email phone =
        .ok ({ store with
                customers := store.customers ++ [⟨store.nextCustomerId, name, email, phone⟩],
                nextCustomerId := store.nextCustomerId + 1 },
             ⟨store.nextCustomerId, name, email, phone⟩,
             "Customer created successfully.")) ∧
    (∀ s' c msg n2 p2, createCustomer store name email phone = .ok (s', c, msg) →
      truthyStr p2 = true → is_valid_phone (p2.getD "") = true →
      createCustomer s' n2 email p2 = .error .emailExists ∧
      errKind .emailExists = .conflict) := by
  refine ⟨?_, ?_, ?_, ?_, ?_⟩
  · rintro (h | h) <;> exact ⟨by simp [createCustomer, h], rfl⟩
  · intro h1 h2 h3
    exact ⟨by simp [createCustomer, h1, h2, h3], rfl⟩
  · intro h1 h2 h3 h4
    exact ⟨by simp [createCustomer, h1, h2, h3, h4], rfl⟩
  · intro h1 h2 h3 h4
    simp [createCustomer, h1, h2, h3, h4]
  · intro s' c msg n2 p2 h hp1 hp2
    obtain ⟨hc, hs, -, -, -, -, -⟩ := createCustomer_ok_inv h
    refine ⟨?_, rfl⟩
    have hany : s'.customers.any (fun x => x.email = email) = true := by
      rw [hs]
      simp [List.any_append, hc]
    simp [createCustomer, hp1, hp2, hany]

/-- Witness for C3 at concrete calls. -/
theorem C3_createCustomer_check_order_witness :
    createCustomer ⟨[], [], [], 1, 1⟩ "A" "a@x.com" none = .error .invalidPhoneFormat ∧
    createCustomer storeCO "A" "c@x.com" (some "+25551234567") = .error .emailExists ∧
    createCustomer storeCO "A" "a@x.com" (some "+15551234567") = .error .phoneExists ∧
    createCustomer storeCO "A" "a@x.com" (some "+25551234567") =
      .ok ({ storeCO with
              customers := storeCO.customers ++
                [⟨2, "A", "a@x.com", some "+25551234567"⟩],
              nextCustomerId := 3 },
           ⟨2, "A", "a@x.com", some "+25551234567"⟩,
           "Customer created successfully.") ∧
    createCustomer
      ({ storeCO with
          customers := storeCO.customers ++
            [⟨2, "A", "a@x.com", some "+25551234567"⟩],
          nextCustomerId := 3 })
      "B" "a@x.com" (some "+35551234567") = .error .emailExists :=
  ⟨((C3_createCustomer_check_order ⟨[], [], [], 1, 1⟩ "A" "a@x.com" none).1
      (Or.inl rfl)).1,
   ((C3_createCustomer_check_order storeCO "A" "c@x.com" (some "+25551234567")).2.1
      rfl (by decide) rfl).1,
   ((C3_createCustomer_check_order storeCO "A" "a@x.com" (some "+15551234567")).2.2.1
      rfl (by decide) rfl rfl).1,
   (C3_createCustomer_check_order storeCO "A" "a@x.com" (some "+25551234567")).2.2.2.1
      rfl (by decide) rfl rfl,
   ((C3_createCustomer_check_order storeCO "A" "a@x.com" (some "+25551234567")).2.2.2.2
      _ _ _ "B" (some "+35551234567")
      ((C3_createCustomer_check_order storeCO "A" "a@x.com" (some "+25551234567")).2.2.2.1
        rfl (by decide) rfl rfl)
      rfl (by decide)).1⟩

lemma bulkItemStep_ok_inv {store : Store} {item : BulkItem} {s' : Store}
    {c : Customer} (h : bulkItemStep store item = .ok (s', c)) :
    c = ⟨store.nextCustomerId, item.name, item.email, item.phone⟩ ∧
    s' = { store with customers := store.customers ++ [c],
                      nextCustomerId := store.nextCustomerId + 1 } := by
  unfold bulkItemStep at h
  split at h
  · exact absurd h (by simp)
  · split at h
    · exact absurd h (by simp)
    · split at h
      · exact absurd h (by simp)
      · simp only [Except.ok.injEq, Prod.mk.injEq] at h
        obtain ⟨hs, hc⟩ := h
        exact ⟨hc.symm, by rw [← hs, hc]⟩

lemma bulk_length : ∀ (input : List BulkItem) (store : Store),
    (bulkCreateCustomers store input).2.1.length +
      (bulkCreateCustomers store input).2.2.length = input.length := by
  intro input
  induction input with
  | nil => intro store; rfl
  | cons item rest ih =>
      intro store
      cases hstep : bulkItemStep store item with
      | ok r =>
          obtain ⟨s', c⟩ := r
          simp only [bulkCreateCustomers, hstep, List.length_cons]
          have := ih s'
          omega
      | error e =>
          simp only [bulkCreateCustomers, hstep, List.length_cons]
          have := ih store
          omega

lemma bulk_customers : ∀ (input : List BulkItem) (store : Store),
    (bulkCreateCustomers store input).1.customers =
      store.customers ++ (bulkCreateCustomers store input).2.1 := by
  intro input
  induction input with
  | nil => intro store; simp [bulkCreateCustomers]
  | cons item rest ih =>
      intro store
      cases hstep : bulkItemStep store item with
      | ok r =>
          obtain ⟨s', c⟩ := r
          obtain ⟨hc, hs⟩ := bulkItemStep_ok_inv hstep
          simp only [bulkCreateCustomers, hstep]
          rw [ih s', hs]
          simp
      | error e =>
          simp only [bulkCreateCustomers, hstep]
          exact ih store

/-- Claim C4: BulkCreateCustomers yields exactly one outcome (a created customer
or a collected error message) per input item, so a failing item never
aborts the rest; every created customer is persisted, appended to the
store; and on the spec's two-item example it returns exactly customer A and
the missing-name error message. -/
theorem C4_bulk_isolation (store : Store) (input : List BulkItem) :
    (bulkCreateCustomers store input).2.1.length +
      (bulkCreateCustomers store input).2.2.length = input.length ∧
    (bulkCreateCustomers store input).1.customers =
      store.customers ++ (bulkCreateCustomers store input).2.1 ∧
    bulkCreateCustomers ⟨[], [], [], 1, 1⟩
        [⟨"A", "a@x.com", some "+15551234567"⟩, ⟨"", "b@x.com", none⟩] =
      (⟨[⟨1, "A", "a@x.com", some "+15551234567"⟩], [], [], 2, 1⟩,
       [⟨1, "A", "a@x.com", some "+15551234567"⟩],
       ["Name and email are required fields."]) :=
  ⟨bulk_length input store, bulk_customers input store, rfl⟩

/-- Counterexample for C5: two items of one batch share the email
`dup@x.com`, which exists nowhere in the store before the call; the claim
says both must be accepted, but only one customer is created and the
second item fails with the email-already-exists message. -/
theorem C5_sibling_email_counterexample :
    (⟨[], [], [], 1, 1⟩ : Store).customers.any
        (fun c => c.email = "dup@x.com") = false ∧
    (bulkCreateCustomers ⟨[], [], [], 1, 1⟩
        [⟨"A", "dup@x.com", none⟩, ⟨"B", "dup@x.com", none⟩]).2.1.length = 1 ∧
    (bulkCreateCustomers ⟨[], [], [], 1, 1⟩
        [⟨"A", "dup@x.com", none⟩, ⟨"B", "dup@x.com", none⟩]).2.2 =
      ["A customer with email dup@x.com already exists."] := by
  refine ⟨rfl, rfl, ?_⟩
  decide

/-- Claim C5, amended: an item fails with the email-already-exists error iff its
email exists among the customers persisted at the moment the item is
processed — which includes customers created by earlier items of the same
batch, since each successful item is saved before the next one runs. -/
theorem C5_bulk_email_checked_against_current_store
    (store : Store) (item : BulkItem) :
    (item.name.isEmpty = false → item.email.isEmpty = false →
      (truthyStr item.phone = true → is_valid_phone (item.phone.getD "") = true) →
      (bulkItemStep store item = .error (.bulkEmailExists item.email) ↔
        store.customers.any (fun c => c.email = item.email) = true)) ∧
    (∀ rest s' c, bulkItemStep store item = .ok (s', c) →
      bulkCreateCustomers store (item :: rest) =
        ((bulkCreateCustomers s' rest).1,
         c :: (bulkCreateCustomers s' rest).2.1,
         (bulkCreateCustomers s' rest).2.2)) := by
  constructor
  · intro h1 h2 h3
    have hne : ¬ ((item.name.isEmpty || item.email.isEmpty) = true) := by
      simp [h1, h2]
    have hph : ¬ ((truthyStr item.phone && !is_valid_phone (item.phone.getD "")) = true) := by
      cases ht : truthyStr item.phone
      · simp
      · simp [h3 ht]
    unfold bulkItemStep
    rw [if_neg hne, if_neg hph]
    by_cases hany : store.customers.any (fun c => c.email = item.email) = true
    · rw [if_pos hany]
      simp [hany]
    · rw [if_neg hany]
      simp [hany]
  · intro rest s' c hstep
    simp [bulkCreateCustomers, hstep]

/-- Witness for the amended C5 at concrete inputs. -/
theorem C5_bulk_email_checked_against_current_store_witness :
    (bulkItemStep storeCO ⟨"Z", "c@x.com", none⟩ =
        .error (.bulkEmailExists "c@x.com") ↔
      storeCO.customers.any (fun c => c.email = "c@x.com") = true) ∧
    bulkCreateCustomers storeCO [⟨"Z", "z@x.com", none⟩, ⟨"Y", "y@x.com", none⟩] =
      ((bulkCreateCustomers
          { storeCO with
              customers := storeCO.customers ++ [⟨2, "Z", "z@x.com", none⟩],
              nextCustomerId := 3 } [⟨"Y", "y@x.com", none⟩]).1,
       (⟨2, "Z", "z@x.com", none⟩ : Customer) ::
         (bulkCreateCustomers
          { storeCO with
              customers := storeCO.customers ++ [⟨2, "Z", "z@x.com", none⟩],
              nextCustomerId := 3 } [⟨"Y", "y@x.com", none⟩]).2.1,
       (bulkCreateCustomers
          { storeCO with
              customers := storeCO.customers ++ [⟨2, "Z", "z@x.com", none⟩],
              nextCustomerId := 3 } [⟨"Y", "y@x.com", none⟩]).2.2) :=
  ⟨(C5_bulk_email_checked_against_current_store storeCO ⟨"Z", "c@x.com", none⟩).1
      rfl rfl (fun h => absurd h (by decide)),
   (C5_bulk_email_checked_against_current_store storeCO ⟨"Z", "z@x.com", none⟩).2
      [⟨"Y", "y@x.com", none⟩]
      { storeCO with
          customers := storeCO.customers ++ [⟨2, "Z", "z@x.com", none⟩],
          nextCustomerId := 3 }
      ⟨2, "Z", "z@x.com", none⟩ rfl⟩

/-- Claim C6: an order's total_amount is captured at creation and stored on the
order row; a later product-price update leaves the persisted orders — and
the resolver's answer for the created order — unchanged, still equal to the
sum of the prices as they were at the creating call. -/
theorem C6_total_amount_frozen
    (store : Store) (cid : Nat) (pids : List Nat) (od : Option Nat) (now : Nat)
    (s' : Store) (o : Order) (pid : Nat) (np : Int)
    (h : createOrder store cid pids od now = .ok (s', o)) :
    o ∈ s'.orders ∧
    (setProductPrice s' pid np).orders = s'.orders ∧
    o ∈ (setProductPrice s' pid np).orders ∧
    resolve_total_amount o =
      ((store.products.filter (fun p => pids.contains p.id)).map
        (fun p => p.price)).sum := by
  obtain ⟨ho, hs⟩ := createOrder_ok_inv h
  have hmem : o ∈ s'.orders := by rw [hs]; simp
  exact ⟨hmem, rfl, hmem, by unfold resolve_total_amount; rw [ho]⟩

/-- Witness for C6 at a concrete call. -/
theorem C6_total_amount_frozen_witness :
    (⟨1, 1, [1, 2], 7, 42⟩ : Order) ∈
      (setProductPrice
        { storeCO with orders := [⟨1, 1, [1, 2], 7, 42⟩], nextOrderId := 2 }
        1 999).orders ∧
    resolve_total_amount (⟨1, 1, [1, 2], 7, 42⟩ : Order) =
      ((storeCO.products.filter (fun p => ([1, 2] : List Nat).contains p.id)).map
        (fun p => p.price)).sum :=
  have h := C6_total_amount_frozen storeCO 1 [1, 2] (some 42) 7
    { storeCO with orders := [⟨1, 1, [1, 2], 7, 42⟩], nextOrderId := 2 }
    ⟨1, 1, [1, 2], 7, 42⟩ 1 999 rfl
  ⟨h.2.2.1, h.2.2.2⟩

lemma regexCore_eq_spec (cs : List Char) :
    regexCore cs = specPhoneMatchUni ⟨cs⟩ := by
  unfold regexCore specPhoneMatchUni
  dsimp only
  cases h : stripPlus cs with
  | nil => rfl
  | cons c rest =>
      rw [Bool.eq_iff_iff]
      simp only [Bool.and_eq_true, List.all_cons, List.length_cons]
      constructor
      · rintro ⟨⟨⟨ha1, ha2⟩, hall⟩, hl1, hl14⟩
        have hlen1 := of_decide_eq_true hl1
        have hlen14 := of_decide_eq_true hl14
        refine ⟨⟨⟨decide_eq_true (by omega), decide_eq_true (by omega)⟩,
          ?_, hall⟩, ha1, ha2⟩
        have h1c := of_decide_eq_true ha1
        have hascii : isAsciiDigit c = true := by
          simp only [isAsciiDigit, Bool.and_eq_true]
          exact ⟨decide_eq_true
            (le_trans (show ('0' : Char) ≤ '1' by decide) h1c), ha2⟩
        simp only [isDigitChar, Bool.or_eq_true]
        exact Or.inl hascii
      · rintro ⟨⟨⟨hl2, hl15⟩, hdc, hall⟩, ha1, ha2⟩
        have h2 := of_decide_eq_true hl2
        have h15 := of_decide_eq_true hl15
        exact ⟨⟨⟨ha1, ha2⟩, hall⟩, decide_eq_true (by omega),
          decide_eq_true (by omega)⟩

/-- Counterexample for C7: the code accepts `"12\n"` — the engine's `$`
also matches just before one trailing newline — and accepts `"1٣"`
(U+0663, an Arabic-Indic digit) — the engine's `\d` matches every Unicode
decimal digit; both strings contain a character outside `+`/ASCII digits,
so the spec's pattern as it is worded rejects them. -/
theorem C7_unicode_and_newline_counterexample :
    is_valid_phone "12\n" = true ∧
    specPhoneMatch "12\n" = false ∧
    "12\n".data.all (fun c => isAsciiDigit c || c = '+') = false ∧
    is_valid_phone "1٣" = true ∧
    specPhoneMatch "1٣" = false ∧
    "1٣".data.all (fun c => isAsciiDigit c || c = '+') = false := by
  refine ⟨rfl, rfl, by decide, by decide, rfl, by decide⟩

/-- Claim C7, amended: `is_valid_phone` accepts exactly the strings made
of an optional leading `+`, a first ASCII digit in 1–9, and 1 to 14
further Unicode decimal digits (the engine's `\d`, not only ASCII 0–9),
plus the strings consisting of such a match followed by one trailing
newline. -/
theorem C7_is_valid_phone_characterization (s : String) :
    is_valid_phone s =
      (specPhoneMatchUni s ||
        (s.data.getLast? = some '\n' && specPhoneMatchUni ⟨s.data.dropLast⟩)) := by
  unfold is_valid_phone
  rw [regexCore_eq_spec, regexCore_eq_spec]

/-- Counterexample for C8: one BulkCreateCustomers call, every item of which
succeeds (no error collected), inserts two customers sharing the phone
`+15551234567` into an initially empty store. -/
theorem C8_bulk_phone_duplicate_counterexample :
    phonesDistinct (⟨[], [], [], 1, 1⟩ : Store).customers ∧
    (bulkCreateCustomers ⟨[], [], [], 1, 1⟩
        [⟨"A", "a@x.com", some "+15551234567"⟩,
         ⟨"B", "b@x.com", some "+15551234567"⟩]).2.2 = [] ∧
    ¬ phonesDistinct ((bulkCreateCustomers ⟨[], [], [], 1, 1⟩
        [⟨"A", "a@x.com", some "+15551234567"⟩,
         ⟨"B", "b@x.com", some "+15551234567"⟩]).1.customers) := by
  refine ⟨by decide, rfl, by decide⟩

lemma createCustomer_preserves_phonesDistinct {store : Store}
    {name email : String} {phone : Option String} {s' : Store} {c : Customer}
    {msg : String} (h : createCustomer store name email phone = .ok (s', c, msg))
    (hd : phonesDistinct store.customers) : phonesDistinct s'.customers := by
  obtain ⟨hc, hs, -, ht, -, -, hp⟩ := createCustomer_ok_inv h
  cases hph : phone with
  | none => rw [hph] at ht; exact absurd ht (by simp [truthyStr])
  | some p =>
      rw [hs, hc, hph]
      unfold phonesDistinct at hd ⊢
      rw [List.filterMap_append]
      simp only [List.filterMap_cons, List.filterMap_nil]
      rw [List.nodup_append]
      refine ⟨hd, List.nodup_singleton p, ?_⟩
      intro q hq hq'
      simp only [List.mem_singleton] at hq'
      subst hq'
      obtain ⟨x, hx, hxp⟩ := List.mem_filterMap.mp hq
      have : store.customers.any (fun y => y.phone = phone) = true :=
        List.any_eq_true.mpr ⟨x, hx, by rw [hph]; simp [hxp]⟩
      rw [hph] at this
      rw [hph] at hp
      rw [this] at hp
      exact Bool.noConfusion hp

/-- Claim C8, amended: any sequence of CreateCustomer calls preserves the
pairwise distinctness of present phone values (each successful call checks
phone uniqueness before saving); BulkCreateCustomers performs no such
check and can break the invariant, as the counterexample shows. -/
theorem C8_createCustomer_sequences_preserve_phone_uniqueness
    (store : Store) (reqs : List (String × String × Option String))
    (h : phonesDistinct store.customers) :
    phonesDistinct (runCreates store reqs).customers := by
  induction reqs generalizing store with
  | nil => exact h
  | cons r rest ih =>
      obtain ⟨n, e, p⟩ := r
      cases hc : createCustomer store n e p with
      | ok t =>
          obtain ⟨s', c, msg⟩ := t
          simp only [runCreates, hc]
          exact ih _ (createCustomer_preserves_phonesDistinct hc h)
      | error e' =>
          simp only [runCreates, hc]
          exact ih _ h

/-- Witness for the amended C8 at a concrete sequence. -/
theorem C8_createCustomer_sequences_preserve_phone_uniqueness_witness :
    phonesDistinct (⟨[], [], [], 1, 1⟩ : Store).customers ∧
    phonesDistinct (runCreates ⟨[], [], [], 1, 1⟩
      [("A", "a@x.com", some "+15551234567"),
       ("B", "b@x.com", some "+15551234567"),
       ("D", "d@x.com", some "+45551234567")]).customers :=
  ⟨by decide,
   C8_createCustomer_sequences_preserve_phone_uniqueness ⟨[], [], [], 1, 1⟩
     [("A", "a@x.com", some "+15551234567"),
      ("B", "b@x.com", some "+15551234567"),
      ("D", "d@x.com", some "+45551234567")] (by decide)⟩

/-- Claim C9: with every other product filter unsupplied, `lowStock=true` keeps
exactly the products whose stock is strictly below 10, and an absent or
false `lowStock` imposes no constraint. -/
theorem C9_low_stock_filter (ps : List Product) :
    applyProductFilter ⟨none, none, none, none, none, some true⟩ ps =
      ps.filter (fun p => decide (p.stock < 10)) ∧
    (∀ p, p ∈ applyProductFilter ⟨none, none, none, none, none, some true⟩ ps ↔
      p ∈ ps ∧ p.stock < 10) ∧
    applyProductFilter ⟨none, none, none, none, none, none⟩ ps = ps ∧
    applyProductFilter ⟨none, none, none, none, none, some false⟩ ps = ps := by
  refine ⟨rfl, ?_, rfl, rfl⟩
  intro p
  show p ∈ ps.filter (fun p => decide (p.stock < 10)) ↔ _
  simp [List.mem_filter]

/-- Claim C10: in the order filter a falsy `productId` — the number 0 — imposes
no constraint (the queryset comes back unchanged rather than empty), while
a nonzero `productId` narrows to the orders containing that product id. -/
theorem C10_product_id_zero_is_no_constraint (store : Store) (os : List Order) :
    applyOrderFilter store ⟨none, none, none, none, none, none, some 0⟩ os = os ∧
    filter_product_id os 0 = os ∧
    (∀ v, v ≠ 0 →
      applyOrderFilter store ⟨none, none, none, none, none, none, some v⟩ os =
        os.filter (fun o => o.productIds.contains v)) := by
  refine ⟨rfl, rfl, ?_⟩
  intro v hv
  show filter_product_id os v = _
  rw [filter_product_id, if_pos hv]

/-- Witness for C10 at a concrete nonzero product id. -/
theorem C10_product_id_zero_is_no_constraint_witness :
    applyOrderFilter storeCO ⟨none, none, none, none, none, none, some 2⟩
        [⟨1, 1, [1, 2], 7, 42⟩, ⟨2, 1, [1], 3, 43⟩] =
      ([⟨1, 1, [1, 2], 7, 42⟩, ⟨2, 1, [1], 3, 43⟩] : List Order).filter
        (fun o => o.productIds.contains 2) ∧
    applyOrderFilter storeCO ⟨none, none, none, none, none, none, some 0⟩
        [⟨1, 1, [1, 2], 7, 42⟩, ⟨2, 1, [1], 3, 43⟩] =
      [⟨1, 1, [1, 2], 7, 42⟩, ⟨2, 1, [1], 3, 43⟩] :=
  have h := C10_product_id_zero_is_no_constraint storeCO
    [⟨1, 1, [1, 2], 7, 42⟩, ⟨2, 1, [1], 3, 43⟩]
  ⟨h.2.2 2 (by decide), h.1⟩

end Crm
